import Mathlib

/-!
Verification of `src/modules/llm.py` (bitbot LLM dispatcher module).

The module routes a textual prompt plus optional conversational context to
one of two text-generation backends (Gemini cloud API, self-hosted Ollama),
normalizes request/response shapes behind an abstract provider interface and
returns a single cleaned line of text.

We embed the Python code shallowly: strings are Lean `String`s (ASCII-faithful),
Python `None`-able parameters are `Option String`, JSON values are a small
inductive `Json`, Python exceptions escaping a function are the `error` side
of `Except PyError`.  The HTTP helper `utils.http.request` is not part of the
source tree; it is modelled from the spec as an oracle parameter.
-/

namespace LLM

/-- JSON values, the shape of request payloads and parsed response bodies.
Only the constructors the module manipulates are needed. -/
inductive Json where
  | null
  | str (s : String)
  | arr (xs : List Json)
  | obj (fields : List (String × Json))

/-- Python exceptions that can escape the functions we model:
`RuntimeError(msg)` raised by `GeminiProvider.prepare`, `AttributeError`
from calling a method on `None` (or a non-string), and the lookup errors
(`KeyError` / `IndexError` / `TypeError`) raised by subscripting during
`parse`. -/
inductive PyError where
  | runtimeError (msg : String)
  | attributeError
  | lookupError
deriving Repr, DecidableEq

/-- Python truthiness of an optional string: `None` and `""` are falsy. -/
def pyTruthy : Option String → Bool
  | none => false
  | some s => !(s == "")

/-- Python `a or b` for an optional string `a` with string fallback `b`. -/
def pyOrD (a : Option String) (b : String) : String :=
  match a with
  | none => b
  | some s => if s == "" then b else s

/-- Python `a or b` for two strings (`a` kept unless empty). -/
def pyOr (a b : String) : String :=
  if a == "" then b else a

/-- Python `str(x)` as used by an f-string on a possibly-`None` value:
`None` renders as the literal text `"None"`. -/
def pyFStr : Option String → String
  | none => "None"
  | some s => s

/-- ASCII lowering of one character (Python `str.lower` restricted to ASCII,
which is all the module relies on for provider names). -/
def asciiLowerChar (c : Char) : Char :=
  if 'A' ≤ c ∧ c ≤ 'Z' then Char.ofNat (c.toNat + 32) else c

/-- Python `str.lower()` (ASCII-faithful). -/
def asciiLower (s : String) : String :=
  String.mk (s.data.map asciiLowerChar)

/-- Python whitespace characters recognised by `str.strip()` / `str.split()`
(space, tab, newline, carriage return, vertical tab, form feed). -/
def isPySpace (c : Char) : Bool :=
  c == ' ' || c == '\t' || c == '\n' || c == '\r' || c == '\x0b' || c == '\x0c'

/-- Python `str.strip()` on a character list: drop whitespace from both ends. -/
def pyStripChars (l : List Char) : List Char :=
  ((l.dropWhile isPySpace).reverse.dropWhile isPySpace).reverse

/-- Python `str.strip()`. -/
def pyStrip (s : String) : String :=
  String.mk (pyStripChars s.data)

/-- Python `str.split()` with no argument: split on runs of whitespace,
producing no empty tokens.  `acc` holds the current token reversed. -/
def splitWS : List Char → List Char → List (List Char)
  | [], acc => if acc.isEmpty then [] else [acc.reverse]
  | c :: rest, acc =>
    if isPySpace c then
      if acc.isEmpty then splitWS rest [] else acc.reverse :: splitWS rest []
    else
      splitWS rest (c :: acc)

/-- Python `" ".join(tokens)` on character-list tokens. -/
def joinSp : List (List Char) → List Char
  | [] => []
  | [t] => t
  | t :: t2 :: rest => t ++ ' ' :: joinSp (t2 :: rest)

/-- The dispatcher's whitespace normalization,
`" ".join(content.strip().split())`. -/
def cleanText (s : String) : String :=
  String.mk (joinSp (splitWS (pyStripChars s.data) []))

/-- Python `str.rstrip("/")`: remove all trailing slashes. -/
def rstripSlash (s : String) : String :=
  String.mk ((s.data.reverse.dropWhile (fun c => c == '/')).reverse)

def DEFAULT_GEMINI_URL : String :=
  "https://generativelanguage.googleapis.com/v1beta/models/gemini-2.0-flash:generateContent"

def DEFAULT_OLLAMA_HOST : String := "http://localhost:11434"

def DEFAULT_OLLAMA_MODEL : String := "gemma3n:e4b"

/-- The raw bot configuration store: each key may be absent. -/
structure BotConfig where
  llm_provider : Option String
  gemini_api_key : Option String
  gemini_url : Option String
  ollama_host : Option String
  ollama_model : Option String

/-- The per-call configuration snapshot built by `Module._get_config`.
`gemini_key` keeps its `Option` because `config.get("gemini-api-key")`
has no default. -/
structure Cfg where
  llm_provider : String
  gemini_key : Option String
  gemini_url : String
  ollama_host : String
  ollama_model : String

/-- `Module._get_config`: resolve each key with its hard-coded fallback. -/
def getConfig (bc : BotConfig) : Cfg :=
  { llm_provider := bc.llm_provider.getD "gemini"
    gemini_key := bc.gemini_api_key
    gemini_url := bc.gemini_url.getD DEFAULT_GEMINI_URL
    ollama_host := bc.ollama_host.getD DEFAULT_OLLAMA_HOST
    ollama_model := bc.ollama_model.getD DEFAULT_OLLAMA_MODEL }

/-- A request envelope `(url, headers, payload)` returned by `prepare`. -/
structure Envelope where
  url : String
  headers : List (String × String)
  payload : Json

/-- `GeminiProvider.prepare`.  Raises `RuntimeError("Gemini API key missing")`
when the key is absent or empty; with a `None` system prompt,
`system_prompt.strip()` raises `AttributeError`.  `chat_history` is unused. -/
def geminiPrepare (cfg : Cfg) (system_prompt chat_history : Option String) :
    Except PyError Envelope :=
  if pyTruthy cfg.gemini_key then
    let url := pyOr cfg.gemini_url DEFAULT_GEMINI_URL
    let headers := [("Content-Type", "application/json"),
                    ("X-goog-api-key", cfg.gemini_key.getD "")]
    match system_prompt with
    | none => .error .attributeError
    | some sp =>
      let full_prompt := pyStrip sp ++ "\n\n"
      .ok { url := url, headers := headers,
            payload := .obj [("contents", .arr [.obj [("parts",
              .arr [.obj [("text", .str full_prompt)]])]])] }
  else
    .error (.runtimeError "Gemini API key missing")

/-- `GeminiProvider.parse`: `resp["candidates"][0]["content"]["parts"][0]["text"]`.
Any missing segment raises a lookup error. -/
def jGet (j : Json) (k : String) : Except PyError Json :=
  match j with
  | .obj fields =>
    match fields.lookup k with
    | some v => .ok v
    | none => .error .lookupError
  | _ => .error .lookupError

/-- Python subscripting `j[n]` for a JSON array index. -/
def jIdx (j : Json) (n : Nat) : Except PyError Json :=
  match j with
  | .arr xs =>
    match xs.get? n with
    | some v => .ok v
    | none => .error .lookupError
  | _ => .error .lookupError

/-- `GeminiProvider.parse`. -/
def geminiParse (resp : Json) : Except PyError Json := do
  let c ← jGet resp "candidates"
  let c0 ← jIdx c 0
  let ct ← jGet c0 "content"
  let ps ← jGet ct "parts"
  let p0 ← jIdx ps 0
  jGet p0 "text"

/-- The fixed disclaimer/persona preamble and delimited chat-history block
prepended by `OllamaProvider.prepare` (a Python f-string: an absent history
renders as the literal text `None`). -/
def ollamaHeader (chat_history : Option String) : String :=
  "Sometimes your response could be an offensive observation based on chat history\n" ++
  "use the following chat history to inform your response:\n" ++
  "=== Chat history START ===\n" ++ pyFStr chat_history ++
  "\n=== Chat history END ===\n\n"

/-- `OllamaProvider.prepare`: never raises; an empty or absent system prompt
yields an empty message list. -/
def ollamaPrepare (cfg : Cfg) (system_prompt chat_history : Option String) :
    Except PyError Envelope :=
  let host := rstripSlash (pyOr cfg.ollama_host DEFAULT_OLLAMA_HOST)
  let model := pyOr cfg.ollama_model DEFAULT_OLLAMA_MODEL
  let url := host ++ "/v1/chat/completions"
  let headers := [("Content-Type", "application/json")]
  let messages : List Json :=
    if pyTruthy system_prompt then
      [.obj [("role", .str "system"),
             ("content", .str (ollamaHeader chat_history ++ system_prompt.getD ""))]]
    else []
  .ok { url := url, headers := headers,
        payload := .obj [("model", .str model), ("messages", .arr messages)] }

/-- `OllamaProvider.parse`: `resp["choices"][0]["message"]["content"]`. -/
def ollamaParse (resp : Json) : Except PyError Json := do
  let c ← jGet resp "choices"
  let c0 ← jIdx c 0
  let m ← jGet c0 "message"
  jGet m "content"

/-- The closed set of provider implementations. -/
inductive ProviderKind where
  | gemini
  | ollama
deriving Repr, DecidableEq

/-- The registry `PROVIDERS`, a dict from lower-cased name to class. -/
def PROVIDERS : List (String × ProviderKind) :=
  [("gemini", .gemini), ("ollama", .ollama)]

/-- Dynamic dispatch of `provider.prepare`. -/
def prepare : ProviderKind → Cfg → Option String → Option String → Except PyError Envelope
  | .gemini => geminiPrepare
  | .ollama => ollamaPrepare

/-- Dynamic dispatch of `provider.parse`. -/
def parse : ProviderKind → Json → Except PyError Json
  | .gemini => geminiParse
  | .ollama => ollamaParse

/-- One HTTP request as handed to `utils.http.request` by the dispatcher.
The JSON-encoded body (`post_data=json.dumps(payload)`) is modelled as the
payload's JSON value itself. -/
structure HttpRequest where
  url : String
  method : String
  headers : List (String × String)
  post_data : Json
  json_body : Bool
  timeout : Nat

/-- Modelled from the spec: `utils.http.request(...).json()` is not in the
source tree.  Per the network contract it performs the request with the
given timeout (reference value 30 seconds, i.e. 30000 milliseconds) and
JSON-decodes the response; any transport failure (timeout, connection
refused, DNS failure, non-decodable body) is an exception, carried here as
`Except.error` with a subtype description string. -/
def Net : Type := HttpRequest → Except String Json

/-- The request the dispatcher builds from a prepared envelope:
`method="POST"`, `json_body=False`, `timeout=30_000`. -/
def mkReq (env : Envelope) : HttpRequest :=
  { url := env.url, method := "POST", headers := env.headers,
    post_data := env.payload, json_body := false, timeout := 30000 }

/-- The observable effects of one dispatch call: network requests issued,
lines written to the diagnostic sink (`event["stderr"]`), lines written to
`event["stdout"]`, and messages sent to the target channel. -/
structure Trace where
  requests : List HttpRequest
  stderr : List String
  stdout : List String
  sent : List String

def Trace.empty : Trace := ⟨[], [], [], []⟩

/-- `Module._query_llm`: the dispatcher.  Returns the trace of effects and
either `ok b` (the Python `return b`) or `error e` (an exception escaping
the call).  Only the HTTP request and JSON decoding sit inside the
`try/except`; `provider.prepare` and `provider.parse` are outside it, so
their exceptions propagate. -/
def queryLLM (cfg : Cfg) (net : Net) (system_prompt chat_history : Option String)
    (use_stdout : Bool) : Trace × Except PyError Bool :=
  let backend := asciiLower cfg.llm_provider
  match PROVIDERS.lookup backend with
  | none =>
    ({ Trace.empty with stderr := ["Unknown LLM provider: " ++ backend] }, .ok false)
  | some pk =>
    match prepare pk cfg system_prompt chat_history with
    | .error e => (Trace.empty, .error e)
    | .ok env =>
      let req := mkReq env
      match net req with
      | .error _ =>
        ({ Trace.empty with
            requests := [req]
            stderr := ["LLM service is unreachable."] }, .ok false)
      | .ok resp =>
        match parse pk resp with
        | .error e => ({ Trace.empty with requests := [req] }, .error e)
        | .ok content =>
          match content with
          | .str s =>
            let clean := cleanText s
            if use_stdout then
              ({ Trace.empty with requests := [req], stdout := [clean] }, .ok true)
            else
              ({ Trace.empty with requests := [req], sent := [clean] }, .ok true)
          | _ => ({ Trace.empty with requests := [req] }, .error .attributeError)

/-- One buffered IRC line as consumed by `Module._build_history`: its tag
map, raw sender label, and message text. -/
structure BufferLine where
  tags : List (String × String)
  sender : String
  message : String

/-- The identity rendered for one line:
`line.tags.get('account') or line.sender` (Python `or`: an absent key and
an empty account value both fall back to the sender). -/
def lineIdentity (l : BufferLine) : String :=
  match l.tags.lookup "account" with
  | some a => if a == "" then l.sender else a
  | none => l.sender

/-- The per-line rendering `f"{identity}: {message}"`. -/
def renderLine (l : BufferLine) : String :=
  lineIdentity l ++ ": " ++ l.message

/-- The list of rendered lines: `limit` most recent entries of the
newest-first buffer, reversed to oldest-first. -/
def historyLines (buffer : List BufferLine) (limit : Nat) : List String :=
  ((buffer.take limit).reverse).map renderLine

/-- `Module._build_history`. -/
def buildHistory (buffer : List BufferLine) (limit : Nat) : String :=
  String.intercalate "\n" (historyLines buffer limit)

/-! ## Helper lemmas -/

/-- Every token produced by `splitWS` is whitespace-free, provided the
accumulator is. -/
theorem splitWS_no_space : ∀ (l acc : List Char),
    (∀ c ∈ acc, isPySpace c = false) →
    ∀ t ∈ splitWS l acc, ∀ c ∈ t, isPySpace c = false
  | [], acc, hacc, t, ht, c, hc => by
    unfold splitWS at ht
    by_cases h : acc.isEmpty
    · simp [h] at ht
    · simp [h] at ht
      subst ht
      exact hacc c (List.mem_reverse.mp hc)
  | ch :: rest, acc, hacc, t, ht, c, hc => by
    unfold splitWS at ht
    by_cases hs : isPySpace ch
    · by_cases he : acc.isEmpty
      · simp [hs, he] at ht
        exact splitWS_no_space rest [] (by simp) t ht c hc
      · simp [hs, he] at ht
        rcases ht with h1 | h2
        · subst h1
          exact hacc c (List.mem_reverse.mp hc)
        · exact splitWS_no_space rest [] (by simp) t h2 c hc
    · simp [hs] at ht
      refine splitWS_no_space rest (ch :: acc) ?_ t ht c hc
      intro c' hc'
      rcases List.mem_cons.mp hc' with h1 | h2
      · subst h1
        exact Bool.eq_false_iff.mpr hs
      · exact hacc c' h2

/-- Every character of a space-join is a space or comes from a token. -/
theorem mem_joinSp : ∀ (ts : List (List Char)) (c : Char), c ∈ joinSp ts →
    c = ' ' ∨ ∃ t ∈ ts, c ∈ t
  | [], c, h => by simp [joinSp] at h
  | [t], c, h => by
    exact Or.inr ⟨t, by simp, h⟩
  | t :: t2 :: rest, c, h => by
    unfold joinSp at h
    rcases List.mem_append.mp h with h1 | h2
    · exact Or.inr ⟨t, by simp, h1⟩
    · rcases List.mem_cons.mp h2 with h3 | h4
      · exact Or.inl h3
      · rcases mem_joinSp (t2 :: rest) c h4 with h5 | ⟨t', ht', hc'⟩
        · exact Or.inl h5
        · exact Or.inr ⟨t', List.mem_cons_of_mem _ ht', hc'⟩

/-- The normalized text never contains a whitespace character other than a
single space. -/
theorem cleanText_no_space_run (s : String) (c : Char) (hc : c ∈ (cleanText s).data)
    (hws : isPySpace c = true) : c = ' ' := by
  have h' : c ∈ joinSp (splitWS (pyStripChars s.data) []) := hc
  rcases mem_joinSp _ c h' with h1 | ⟨t, ht, hmem⟩
  · exact h1
  · have := splitWS_no_space _ [] (by simp) t ht c hmem
    rw [this] at hws
    cases hws

/-- No newline survives normalization. -/
theorem cleanText_no_newline (s : String) : '\n' ∉ (cleanText s).data := by
  intro h
  have := cleanText_no_space_run s '\n' h (by decide)
  cases this

/-- Every line the dispatcher delivers (to stdout or the reply sink) is a
normalized text. -/
theorem queryLLM_delivered (cfg : Cfg) (net : Net) (sp ch : Option String)
    (mode : Bool) (m : String)
    (hm : m ∈ (queryLLM cfg net sp ch mode).1.stdout ∨
          m ∈ (queryLLM cfg net sp ch mode).1.sent) :
    ∃ s, m = cleanText s := by
  unfold queryLLM at hm
  dsimp only at hm
  rcases hl : List.lookup (asciiLower cfg.llm_provider) PROVIDERS with _ | pk <;>
    rw [hl] at hm <;> dsimp only at hm
  · simp [Trace.empty] at hm
  · rcases hp : prepare pk cfg sp ch with e | env <;> rw [hp] at hm <;> dsimp only at hm
    · simp [Trace.empty] at hm
    · rcases hn : net (mkReq env) with e | resp <;> rw [hn] at hm <;> dsimp only at hm
      · simp [Trace.empty] at hm
      · rcases hc : parse pk resp with e | content <;> rw [hc] at hm <;> dsimp only at hm
        · simp [Trace.empty] at hm
        · cases content with
          | str s => cases mode <;> simp [Trace.empty] at hm <;> exact ⟨s, hm⟩
          | null => simp [Trace.empty] at hm
          | arr xs => simp [Trace.empty] at hm
          | obj fs => simp [Trace.empty] at hm

/-! ## Sample values used in witnesses -/

/-- A configuration selecting the local backend, everything else defaulted. -/
def cfgOllama : Cfg := ⟨"ollama", none, "", "", ""⟩

/-- A network oracle whose response is JSON `null`. -/
def netNull : Net := fun _ => .ok .null

/-- A network oracle whose response is the empty JSON object. -/
def netEmptyObj : Net := fun _ => .ok (.obj [])

/-- A network oracle answering with a well-formed local-backend response. -/
def netOk : Net := fun _ =>
  .ok (.obj [("choices", .arr [.obj [("message",
    .obj [("content", .str "hi there")])]])])

/-- The envelope `OllamaProvider.prepare` builds from a fully-defaulted
configuration with no system prompt. -/
def ollamaEnvDefault : Envelope :=
  { url := "http://localhost:11434/v1/chat/completions"
    headers := [("Content-Type", "application/json")]
    payload := .obj [("model", .str "gemma3n:e4b"), ("messages", .arr [])] }

/-! ## Claim theorems -/

/-- C6: the dispatcher's normalization collapses all whitespace runs to
single spaces and trims both ends, so no delivered line contains an
embedded newline; in particular the input `"  a\n\nb\tc  "` is delivered
as `"a b c"`. -/
theorem whitespace_normalization :
    (∀ s : String, '\n' ∉ (cleanText s).data) ∧
    cleanText "  a\n\nb\tc  " = "a b c" ∧
    (∀ (cfg : Cfg) (net : Net) (sp ch : Option String) (mode : Bool) (m : String),
      (m ∈ (queryLLM cfg net sp ch mode).1.stdout ∨
       m ∈ (queryLLM cfg net sp ch mode).1.sent) → '\n' ∉ m.data) := by
  refine ⟨cleanText_no_newline, by decide, ?_⟩
  intro cfg net sp ch mode m hm
  obtain ⟨s, rfl⟩ := queryLLM_delivered cfg net sp ch mode m hm
  exact cleanText_no_newline s

/-- Witness for C6: a concrete dispatch that delivers `"hi there"` to
stdout, whose delivered line indeed has no newline. -/
theorem whitespace_normalization_witness :
    '\n' ∉ ("hi there" : String).data :=
  whitespace_normalization.2.2 cfgOllama netOk none none true "hi there"
    (Or.inl (by decide))

/-- C3: every name whose lower-cased form is `"gemini"` or `"ollama"`
resolves in the registry; for any other configured name the dispatcher
writes the `Unknown LLM provider` diagnostic, returns `False`, performs no
network request and raises no fault. -/
theorem registry_resolution :
    (∀ name : String, (asciiLower name = "gemini" ∨ asciiLower name = "ollama") →
      (List.lookup (asciiLower name) PROVIDERS).isSome = true) ∧
    (∀ (cfg : Cfg) (net : Net) (sp ch : Option String) (mode : Bool),
      List.lookup (asciiLower cfg.llm_provider) PROVIDERS = none →
      queryLLM cfg net sp ch mode =
        ({ Trace.empty with
            stderr := ["Unknown LLM provider: " ++ asciiLower cfg.llm_provider] },
         .ok false)) := by
  constructor
  · intro name h
    rcases h with h | h <;> rw [h] <;> rfl
  · intro cfg net sp ch mode h
    unfold queryLLM
    dsimp only
    rw [h]

/-- Witness for C3: `"GeMiNi"` resolves despite its case; the unsupported
name `"Mistral"` yields the diagnostic, a `False` return and no request. -/
theorem registry_resolution_witness :
    (List.lookup (asciiLower "GeMiNi") PROVIDERS).isSome = true ∧
    queryLLM ⟨"Mistral", none, "", "", ""⟩ netOk none none true =
      ({ Trace.empty with
          stderr := ["Unknown LLM provider: " ++ asciiLower "Mistral"] },
       .ok false) :=
  ⟨registry_resolution.1 "GeMiNi" (Or.inl (by decide)),
   registry_resolution.2 ⟨"Mistral", none, "", "", ""⟩ netOk none none true (by decide)⟩

/-- C1 counterexample: with the cloud backend selected and an empty API
key, the dispatch call writes nothing to the diagnostic sink and ends with
the `RuntimeError` escaping to the caller (`prepare` is called outside the
`try/except`), contradicting the claimed diagnostic-plus-failure-return
handling. -/
theorem missing_credential_cex :
    (queryLLM ⟨"gemini", some "", "", "", ""⟩ netNull (some "hello") none true).1.stderr = [] ∧
    (queryLLM ⟨"gemini", some "", "", "", ""⟩ netNull (some "hello") none true).2 =
      .error (.runtimeError "Gemini API key missing") := ⟨rfl, rfl⟩

/-- C1 (amended): whenever the resolved provider is the cloud backend and
the configured API key is absent or empty, the `MissingCredential`
exception propagates out of the dispatch call uncaught: no diagnostic is
written, no failure indicator is returned, and no network request is
performed. -/
theorem missing_credential_propagates :
    ∀ (cfg : Cfg) (net : Net) (sp ch : Option String) (mode : Bool),
      asciiLower cfg.llm_provider = "gemini" →
      pyTruthy cfg.gemini_key = false →
      queryLLM cfg net sp ch mode =
        (Trace.empty, .error (.runtimeError "Gemini API key missing")) := by
  intro cfg net sp ch mode hprov hkey
  have hg : geminiPrepare cfg sp ch = .error (.runtimeError "Gemini API key missing") := by
    unfold geminiPrepare
    rw [hkey]
    rfl
  unfold queryLLM
  dsimp only
  rw [hprov, show List.lookup ("gemini" : String) PROVIDERS = some ProviderKind.gemini from rfl]
  dsimp only
  rw [show prepare ProviderKind.gemini cfg sp ch = geminiPrepare cfg sp ch from rfl, hg]

/-- Witness for C1 (amended), at a concrete configuration with an absent
key and upper-cased provider name. -/
theorem missing_credential_propagates_witness :
    queryLLM ⟨"GEMINI", none, "", "", ""⟩ netNull none (some "h") false =
      (Trace.empty, .error (.runtimeError "Gemini API key missing")) :=
  missing_credential_propagates _ netNull none (some "h") false (by decide) rfl

/-- C2 counterexample: the network call succeeds with the decodable body
`{}`, `parse` fails on the missing `choices` field, and the lookup error
escapes the dispatch call with no diagnostic written (`parse` is called
outside the `try/except`), contradicting the claimed reported-failure
outcome. -/
theorem parse_failure_cex :
    (queryLLM ⟨"ollama", none, "", "", ""⟩ netEmptyObj none none true).1.stderr = [] ∧
    (queryLLM ⟨"ollama", none, "", "", ""⟩ netEmptyObj none none true).2 =
      .error .lookupError := ⟨rfl, rfl⟩

/-- C2 (amended): when the network call succeeds with a decodable body but
`parse` fails on a missing field, the exception propagates out of the
dispatch call uncaught: no diagnostic is written and no failure indicator
is returned (the one network request remains on the trace). -/
theorem parse_failure_propagates :
    ∀ (cfg : Cfg) (net : Net) (sp ch : Option String) (mode : Bool)
      (pk : ProviderKind) (env : Envelope) (resp : Json) (e : PyError),
      List.lookup (asciiLower cfg.llm_provider) PROVIDERS = some pk →
      prepare pk cfg sp ch = .ok env →
      net (mkReq env) = .ok resp →
      parse pk resp = .error e →
      queryLLM cfg net sp ch mode =
        ({ Trace.empty with requests := [mkReq env] }, .error e) := by
  intro cfg net sp ch mode pk env resp e h1 h2 h3 h4
  unfold queryLLM
  dsimp only
  rw [h1]
  dsimp only
  rw [h2]
  dsimp only
  rw [h3]
  dsimp only
  rw [h4]

/-- Witness for C2 (amended): local backend, empty-object response. -/
theorem parse_failure_propagates_witness :
    queryLLM cfgOllama netEmptyObj none none false =
      ({ Trace.empty with requests := [mkReq ollamaEnvDefault] }, .error .lookupError) :=
  parse_failure_propagates cfgOllama netEmptyObj none none false .ollama
    ollamaEnvDefault (.obj []) .lookupError rfl rfl rfl rfl

/-- C4: every dispatch call performs at most one network request; any
performed request is a POST of the prepared headers and JSON body against
the prepared endpoint with the fixed 30-second (30000 ms) timeout; and
whenever the transport fails — whatever the failure subtype — the dispatch
writes the single generic unreachable diagnostic, returns `False`, and
lets no exception escape. -/
theorem dispatch_network_contract :
    ∀ (cfg : Cfg) (net : Net) (sp ch : Option String) (mode : Bool),
      (queryLLM cfg net sp ch mode).1.requests.length ≤ 1 ∧
      (∀ r ∈ (queryLLM cfg net sp ch mode).1.requests,
        r.method = "POST" ∧ r.timeout = 30000 ∧
        ∃ pk env, List.lookup (asciiLower cfg.llm_provider) PROVIDERS = some pk ∧
          prepare pk cfg sp ch = .ok env ∧ r = mkReq env) ∧
      (∀ r ∈ (queryLLM cfg net sp ch mode).1.requests, ∀ e, net r = .error e →
        (queryLLM cfg net sp ch mode).2 = .ok false ∧
        (queryLLM cfg net sp ch mode).1.stderr = ["LLM service is unreachable."]) := by
  intro cfg net sp ch mode
  unfold queryLLM
  dsimp only
  rcases hl : List.lookup (asciiLower cfg.llm_provider) PROVIDERS with _ | pk <;>
    dsimp only
  · refine ⟨by simp [Trace.empty], ?_, ?_⟩ <;> intro r hr <;> simp [Trace.empty] at hr
  · rcases hp : prepare pk cfg sp ch with e | env <;> dsimp only
    · refine ⟨by simp [Trace.empty], ?_, ?_⟩ <;> intro r hr <;> simp [Trace.empty] at hr
    · rcases hn : net (mkReq env) with e | resp <;> dsimp only
      · refine ⟨by simp [Trace.empty], ?_, ?_⟩
        · intro r hr
          simp [Trace.empty] at hr
          subst hr
          exact ⟨rfl, rfl, pk, env, rfl, hp, rfl⟩
        · intro r hr e' hne
          exact ⟨rfl, rfl⟩
      · rcases hc : parse pk resp with e | content <;> dsimp only
        · refine ⟨by simp [Trace.empty], ?_, ?_⟩
          · intro r hr
            simp [Trace.empty] at hr
            subst hr
            exact ⟨rfl, rfl, pk, env, rfl, hp, rfl⟩
          · intro r hr e' hne
            simp [Trace.empty] at hr
            subst hr
            rw [hn] at hne
            cases hne
        · cases content with
          | str s =>
            cases mode <;> simp only [Bool.false_eq_true, if_true, if_false] <;>
            · refine ⟨by simp [Trace.empty], ?_, ?_⟩
              · intro r hr
                simp [Trace.empty] at hr
                subst hr
                exact ⟨rfl, rfl, pk, env, rfl, hp, rfl⟩
              · intro r hr e' hne
                simp [Trace.empty] at hr
                subst hr
                rw [hn] at hne
                cases hne
          | null =>
            refine ⟨by simp [Trace.empty], ?_, ?_⟩
            · intro r hr
              simp [Trace.empty] at hr
              subst hr
              exact ⟨rfl, rfl, pk, env, rfl, hp, rfl⟩
            · intro r hr e' hne
              simp [Trace.empty] at hr
              subst hr
              rw [hn] at hne
              cases hne
          | arr xs =>
            refine ⟨by simp [Trace.empty], ?_, ?_⟩
            · intro r hr
              simp [Trace.empty] at hr
              subst hr
              exact ⟨rfl, rfl, pk, env, rfl, hp, rfl⟩
            · intro r hr e' hne
              simp [Trace.empty] at hr
              subst hr
              rw [hn] at hne
              cases hne
          | obj fs =>
            refine ⟨by simp [Trace.empty], ?_, ?_⟩
            · intro r hr
              simp [Trace.empty] at hr
              subst hr
              exact ⟨rfl, rfl, pk, env, rfl, hp, rfl⟩
            · intro r hr e' hne
              simp [Trace.empty] at hr
              subst hr
              rw [hn] at hne
              cases hne

/-- Witness for C4: local backend, failing transport — the single request
is a 30-second POST and the failure is reported as unreachable. -/
theorem dispatch_network_contract_witness :
    (mkReq ollamaEnvDefault).method = "POST" ∧
    (mkReq ollamaEnvDefault).timeout = 30000 ∧
    (queryLLM cfgOllama (fun _ => .error "timeout") none none true).2 = .ok false ∧
    (queryLLM cfgOllama (fun _ => .error "timeout") none none true).1.stderr =
      ["LLM service is unreachable."] := by
  have h2 := (dispatch_network_contract cfgOllama (fun _ => .error "timeout") none none true).2.1
    (mkReq ollamaEnvDefault) (by constructor)
  have h3 := (dispatch_network_contract cfgOllama (fun _ => .error "timeout") none none true).2.2
    (mkReq ollamaEnvDefault) (by constructor) "timeout" rfl
  exact ⟨h2.1, h2.2.1, h3.1, h3.2⟩

/-- The system-message content C5 claims for prompt `"p"` with no history:
the fixed preamble, an empty delimited history block, then the prompt. -/
def claimedEmptyBlockContent : String :=
  "Sometimes your response could be an offensive observation based on chat history\n" ++
  "use the following chat history to inform your response:\n" ++
  "=== Chat history START ===\n\n=== Chat history END ===\n\np"

set_option maxRecDepth 8192 in
/-- C5 counterexample: with system prompt `"p"` supplied and an absent
history, the single system message's content is not the preamble followed
by an empty history block and the prompt — the f-string renders the
literal text `None` inside the block. -/
theorem ollama_system_message_cex :
    ollamaPrepare ⟨"ollama", none, "", "", ""⟩ (some "p") none =
      .ok { url := "http://localhost:11434/v1/chat/completions"
            headers := [("Content-Type", "application/json")]
            payload := .obj [("model", .str "gemma3n:e4b"),
              ("messages", .arr [.obj [("role", .str "system"),
                ("content", .str (ollamaHeader none ++ "p"))]])] } ∧
    ollamaHeader none ++ "p" ≠ claimedEmptyBlockContent := ⟨rfl, by decide⟩

/-- C5 (amended): for the local backend's `prepare`, a supplied non-empty
system prompt yields exactly one system message whose content is the fixed
preamble, the delimited chat-history block and the prompt, where the block
renders the history argument verbatim — an empty block for an empty-string
history, the literal text `None` for an absent history; an absent or empty
system prompt yields an empty message list. -/
theorem ollama_system_message :
    ∀ (cfg : Cfg) (ch : Option String),
      (∀ s : String, s ≠ "" →
        ollamaPrepare cfg (some s) ch =
          .ok { url := rstripSlash (pyOr cfg.ollama_host DEFAULT_OLLAMA_HOST) ++
                  "/v1/chat/completions"
                headers := [("Content-Type", "application/json")]
                payload := .obj [("model", .str (pyOr cfg.ollama_model DEFAULT_OLLAMA_MODEL)),
                  ("messages", .arr [.obj [("role", .str "system"),
                    ("content", .str (ollamaHeader ch ++ s))]])] }) ∧
      (∀ sp : Option String, pyTruthy sp = false →
        ollamaPrepare cfg sp ch =
          .ok { url := rstripSlash (pyOr cfg.ollama_host DEFAULT_OLLAMA_HOST) ++
                  "/v1/chat/completions"
                headers := [("Content-Type", "application/json")]
                payload := .obj [("model", .str (pyOr cfg.ollama_model DEFAULT_OLLAMA_MODEL)),
                  ("messages", .arr [])] }) ∧
      ollamaHeader (some "") =
        "Sometimes your response could be an offensive observation based on chat history\n" ++
        "use the following chat history to inform your response:\n" ++
        "=== Chat history START ===\n\n=== Chat history END ===\n\n" ∧
      ollamaHeader none =
        "Sometimes your response could be an offensive observation based on chat history\n" ++
        "use the following chat history to inform your response:\n" ++
        "=== Chat history START ===\nNone\n=== Chat history END ===\n\n" := by
  intro cfg ch
  refine ⟨?_, ?_, rfl, rfl⟩
  · intro s hs
    unfold ollamaPrepare
    have ht : pyTruthy (some s) = true := by simp [pyTruthy, hs]
    rw [ht]
    rfl
  · intro sp hsp
    unfold ollamaPrepare
    rw [hsp]
    rfl

/-- Witness for C5 (amended): concrete host, model, prompt and history. -/
theorem ollama_system_message_witness :
    ("hello" : String) ≠ "" ∧
    ollamaPrepare ⟨"ollama", none, "", "http://h", "m1"⟩ (some "hello") (some "alice: hi") =
      .ok { url := "http://h/v1/chat/completions"
            headers := [("Content-Type", "application/json")]
            payload := .obj [("model", .str "m1"),
              ("messages", .arr [.obj [("role", .str "system"),
                ("content", .str (ollamaHeader (some "alice: hi") ++ "hello"))]])] } := by
  refine ⟨by decide, ?_⟩
  exact (ollama_system_message ⟨"ollama", none, "", "http://h", "m1"⟩
    (some "alice: hi")).1 "hello" (by decide)

/-- The head of a `dropWhile` result never satisfies the predicate. -/
theorem head_dropWhile_false {α : Type} (p : α → Bool) :
    ∀ (l : List α) (c : α), (l.dropWhile p).head? = some c → p c = false
  | [], c, h => by simp at h
  | x :: xs, c, h => by
    by_cases hp : p x = true
    · rw [List.dropWhile_cons_of_pos hp] at h
      exact head_dropWhile_false p xs c h
    · rw [List.dropWhile_cons_of_neg hp] at h
      simp at h
      subst h
      exact Bool.eq_false_iff.mpr hp

/-- Every string is its slash-stripped form followed by a run of slashes. -/
theorem rstripSlash_decomp (s : String) :
    ∃ n, s = rstripSlash s ++ String.mk (List.replicate n '/') := by
  refine ⟨(s.data.reverse.takeWhile (fun c => c == '/')).length, ?_⟩
  apply String.ext
  rw [String.data_append]
  show s.data = (s.data.reverse.dropWhile (fun c => c == '/')).reverse ++
    List.replicate (s.data.reverse.takeWhile (fun c => c == '/')).length '/'
  have hsplit : s.data.reverse.takeWhile (fun c => c == '/') ++
      s.data.reverse.dropWhile (fun c => c == '/') = s.data.reverse :=
    List.takeWhile_append_dropWhile ..
  have hrev := congrArg List.reverse hsplit
  rw [List.reverse_append, List.reverse_reverse] at hrev
  conv_lhs => rw [← hrev]
  congr 1
  rw [List.eq_replicate_iff]
  refine ⟨by rw [List.length_reverse], ?_⟩
  intro b hb
  have hb' := List.mem_reverse.mp hb
  have := List.mem_takeWhile_imp hb'
  simpa using this

/-- C7: the local backend's endpoint is the configured-or-defaulted host
with all trailing slashes stripped, followed by `/v1/chat/completions`:
the host decomposes as the endpoint's host prefix plus a run of slashes
and that prefix never ends in a slash (so no double slash); host
`"http://h/"` yields `"http://h/v1/chat/completions"`; an absent
configured host resolves to the default. -/
theorem ollama_endpoint :
    (∀ (cfg : Cfg) (sp ch : Option String), ∃ hd p n,
      ollamaPrepare cfg sp ch =
        .ok { url := rstripSlash (pyOr cfg.ollama_host DEFAULT_OLLAMA_HOST) ++
                "/v1/chat/completions"
              headers := hd, payload := p } ∧
      (rstripSlash (pyOr cfg.ollama_host DEFAULT_OLLAMA_HOST)).data.getLast? ≠ some '/' ∧
      pyOr cfg.ollama_host DEFAULT_OLLAMA_HOST =
        rstripSlash (pyOr cfg.ollama_host DEFAULT_OLLAMA_HOST) ++
          String.mk (List.replicate n '/')) ∧
    (∃ hd p, ollamaPrepare ⟨"ollama", none, "", "http://h/", ""⟩ (some "x") none =
      .ok { url := "http://h/v1/chat/completions", headers := hd, payload := p }) ∧
    (∀ bc : BotConfig, bc.ollama_host = none →
      (getConfig bc).ollama_host = "http://localhost:11434") := by
  refine ⟨?_, ⟨_, _, rfl⟩, ?_⟩
  · intro cfg sp ch
    obtain ⟨n, hn⟩ := rstripSlash_decomp (pyOr cfg.ollama_host DEFAULT_OLLAMA_HOST)
    refine ⟨_, _, n, rfl, ?_, hn⟩
    intro hcon
    have h1 : ((pyOr cfg.ollama_host DEFAULT_OLLAMA_HOST).data.reverse.dropWhile
        (fun c => c == '/')).reverse.getLast? = some '/' := hcon
    rw [List.getLast?_reverse] at h1
    have := head_dropWhile_false _ _ _ h1
    simp at this
  · intro bc hb
    simp [getConfig, hb, DEFAULT_OLLAMA_HOST]

/-- Witness for C7: an absent configured host falls back to the default. -/
theorem ollama_endpoint_witness :
    (getConfig ⟨some "ollama", none, none, none, none⟩).ollama_host =
      "http://localhost:11434" :=
  ollama_endpoint.2.2 ⟨some "ollama", none, none, none, none⟩ rfl

/-- C9: the cloud backend's `prepare` fails with `MissingCredential` iff
the API key is absent or empty; with a key and a prompt present, the body
wraps the stripped prompt as a single content block, and the supplied
history argument never influences the result. -/
theorem gemini_prepare_spec :
    ∀ (cfg : Cfg) (sp ch : Option String),
      (geminiPrepare cfg sp ch = .error (.runtimeError "Gemini API key missing") ↔
        pyTruthy cfg.gemini_key = false) ∧
      (∀ k s, cfg.gemini_key = some k → k ≠ "" →
        geminiPrepare cfg (some s) ch =
          .ok { url := pyOr cfg.gemini_url DEFAULT_GEMINI_URL
                headers := [("Content-Type", "application/json"), ("X-goog-api-key", k)]
                payload := .obj [("contents", .arr [.obj [("parts",
                  .arr [.obj [("text", .str (pyStrip s ++ "\n\n"))]])]])] }) ∧
      (∀ ch2, geminiPrepare cfg sp ch = geminiPrepare cfg sp ch2) := by
  intro cfg sp ch
  refine ⟨⟨?_, ?_⟩, ?_, fun ch2 => rfl⟩
  · intro h
    cases htv : pyTruthy cfg.gemini_key
    · rfl
    · unfold geminiPrepare at h
      rw [htv] at h
      dsimp only at h
      cases sp with
      | none => simp at h
      | some s => simp at h
  · intro hk
    unfold geminiPrepare
    rw [hk]
    rfl
  · intro k s hk hs
    unfold geminiPrepare
    rw [hk]
    have ht : pyTruthy (some k) = true := by simp [pyTruthy, hs]
    rw [ht]
    rfl

/-- Witness for C9: concrete key and prompt; the prompt is stripped and
wrapped, history ignored. -/
theorem gemini_prepare_spec_witness :
    geminiPrepare ⟨"gemini", some "sk-123", "", "", ""⟩ (some " hi ") (some "history") =
      .ok { url := DEFAULT_GEMINI_URL
            headers := [("Content-Type", "application/json"), ("X-goog-api-key", "sk-123")]
            payload := .obj [("contents", .arr [.obj [("parts",
              .arr [.obj [("text", .str (pyStrip " hi " ++ "\n\n"))]])]])] } :=
  (gemini_prepare_spec ⟨"gemini", some "sk-123", "", "", ""⟩ (some " hi ")
    (some "history")).2.1 "sk-123" " hi " rfl (by decide)

/-- C10: with a configured non-empty API key and no system prompt, the
cloud backend's `prepare` raises the unhandled `AttributeError` (from
`None.strip()`) rather than producing an envelope or a specified error
kind, and a dispatch that reaches the cloud backend propagates that
fault — so a dispatch reaching the cloud backend requires a present
system-prompt text. -/
theorem gemini_requires_prompt :
    ∀ (cfg : Cfg) (net : Net) (ch : Option String) (mode : Bool) (k : String),
      cfg.gemini_key = some k → k ≠ "" →
      geminiPrepare cfg none ch = .error .attributeError ∧
      (asciiLower cfg.llm_provider = "gemini" →
        queryLLM cfg net none ch mode = (Trace.empty, .error .attributeError)) := by
  intro cfg net ch mode k hk hkne
  have hg : geminiPrepare cfg none ch = .error .attributeError := by
    unfold geminiPrepare
    rw [hk]
    have ht : pyTruthy (some k) = true := by simp [pyTruthy, hkne]
    rw [ht]
    rfl
  refine ⟨hg, ?_⟩
  intro hprov
  unfold queryLLM
  dsimp only
  rw [hprov, show List.lookup ("gemini" : String) PROVIDERS = some ProviderKind.gemini from rfl]
  dsimp only
  rw [show prepare ProviderKind.gemini cfg none ch = geminiPrepare cfg none ch from rfl, hg]

/-- Witness for C10: concrete configuration with a key and no prompt. -/
theorem gemini_requires_prompt_witness :
    geminiPrepare ⟨"Gemini", some "key", "", "", ""⟩ none (some "h") =
      .error .attributeError ∧
    queryLLM ⟨"Gemini", some "key", "", "", ""⟩ netNull none (some "h") true =
      (Trace.empty, .error .attributeError) := by
  have h := gemini_requires_prompt ⟨"Gemini", some "key", "", "", ""⟩ netNull
    (some "h") true "key" rfl (by decide)
  exact ⟨h.1, h.2 (by decide)⟩

/-- C8 counterexample: an entry whose `account` tag is present but empty is
rendered with the sender fallback, not with the (empty) account identity
the claim prescribes for a present account. -/
theorem build_history_cex :
    buildHistory [⟨[("account", "")], "s", "m"⟩] 20 = "s: m" ∧
    ("s: m" : String) ≠ ": m" := ⟨rfl, by decide⟩

/-- C8 (amended): `buildHistory` joins with newlines the min(N, limit)
most-recent entries of the newest-first buffer reordered oldest-first, each
rendered as `"{identity}: {message}"`, where the identity is the account
tag when present and non-empty and otherwise the raw sender (an empty
account value also falls back to the sender); an empty buffer yields the
empty string.  The embedding is a pure function of the buffer. -/
theorem build_history_spec :
    ∀ (buffer : List BufferLine) (limit : Nat),
      buildHistory buffer limit = String.intercalate "\n" (historyLines buffer limit) ∧
      (historyLines buffer limit).length = min buffer.length limit ∧
      (∀ i, i < min buffer.length limit → ∃ lb,
        buffer[min buffer.length limit - 1 - i]? = some lb ∧
        (historyLines buffer limit)[i]? = some (renderLine lb)) ∧
      (buffer = [] → buildHistory buffer limit = "") ∧
      (∀ l : BufferLine,
        (l.tags.lookup "account" = none →
          renderLine l = l.sender ++ ": " ++ l.message) ∧
        (∀ a, l.tags.lookup "account" = some a → a ≠ "" →
          renderLine l = a ++ ": " ++ l.message) ∧
        (l.tags.lookup "account" = some "" →
          renderLine l = l.sender ++ ": " ++ l.message)) := by
  intro buffer limit
  refine ⟨rfl, ?_, ?_, ?_, ?_⟩
  · simp [historyLines, Nat.min_comm]
  · intro i hi
    have hlen : (buffer.take limit).length = min limit buffer.length := by
      simp
    have hjlt : min buffer.length limit - 1 - i < buffer.length := by omega
    refine ⟨buffer[min buffer.length limit - 1 - i], List.getElem?_eq_getElem hjlt, ?_⟩
    unfold historyLines
    rw [List.getElem?_map]
    have hi' : i < (buffer.take limit).length := by omega
    rw [List.getElem?_reverse hi', List.getElem?_take]
    have hlt : (buffer.take limit).length - 1 - i < limit := by omega
    rw [if_pos hlt]
    have hidx : (buffer.take limit).length - 1 - i = min buffer.length limit - 1 - i := by
      omega
    rw [hidx, List.getElem?_eq_getElem hjlt]
    rfl
  · intro h
    subst h
    simp [buildHistory, historyLines]
    rfl
  · intro l
    refine ⟨?_, ?_, ?_⟩
    · intro h
      simp [renderLine, lineIdentity, h]
    · intro a h ha
      simp [renderLine, lineIdentity, h, ha]
    · intro h
      simp [renderLine, lineIdentity, h]

/-- A sample newest-first buffer used in the C8 witness. -/
def sampleBuffer : List BufferLine :=
  [⟨[("account", "bob")], "raw", "yo"⟩, ⟨[], "alice", "hi"⟩]

/-- Witness for C8 (amended): an empty buffer gives the empty string, an
authenticated entry renders with its account, and the oldest entry of a
two-entry buffer comes first. -/
theorem build_history_spec_witness :
    buildHistory ([] : List BufferLine) 20 = "" ∧
    renderLine ⟨[("account", "bob")], "raw", "yo"⟩ = "bob" ++ ": " ++ "yo" ∧
    (∃ lb, sampleBuffer[min sampleBuffer.length 20 - 1 - 0]? = some lb ∧
      (historyLines sampleBuffer 20)[0]? = some (renderLine lb)) := by
  refine ⟨(build_history_spec [] 20).2.2.2.1 rfl, ?_, ?_⟩
  · exact ((build_history_spec sampleBuffer 20).2.2.2.2
      ⟨[("account", "bob")], "raw", "yo"⟩).2.1 "bob" rfl (by decide)
  · exact (build_history_spec sampleBuffer 20).2.2.1 0 (by decide)

end LLM
